import Mathlib

/-!
Shallow embedding of the SR830 lock-in amplifier driver (sr830.py).

The driver talks to an instrument over a GPIB transport.  We model the
transport abstractly as a pair of fallible, device-state-transforming
operations (write, query), and each driver method as a function from the
driver state (device handle plus the two cached scalars `it` and `v`) to a
result, a final state and the list of bus events the call performed.

Machine strings are Lean `String`s; Python `int(...)` / `float(...)` /
list-indexing semantics (whitespace stripping, negative indices) are
reproduced explicitly, since several claims hinge on them.  Physical
values (volts, seconds, hertz) are represented as rationals: every number
appearing in the source is an exact decimal literal.
-/

deriving instance DecidableEq for Except

namespace SR830

/-- Error kinds a driver call can raise, mirroring the Python exceptions:
dictionary lookup failure, list index failure, int/float conversion
failure, a failed `assert`, and a transport-level communication error. -/
inductive Err where
  | keyError
  | indexError
  | valueError
  | assertionError
  | commError
deriving DecidableEq

/-- Bus events a driver call performs, in order. -/
inductive Event where
  | write (m : String)
  | query (m : String)
deriving DecidableEq

/-- Abstract GPIB transport over a device-state type `σ`: a raw write and a
raw query, both fallible and both allowed to change the device state. -/
structure Transport (σ : Type) where
  write : String → σ → Except Err σ
  query : String → σ → Except Err (String × σ)

/-- Driver state: the device handle plus the two cached scalars of the
Python object, `self.it` (seconds) and `self.v` (volts). -/
structure DriverState (σ : Type) where
  dev : σ
  it : ℚ
  v : ℚ
deriving DecidableEq

/-- Comparison `a < b` on rationals as a boolean, computed directly on
numerators and denominators so that the kernel can evaluate it (the
built-in rational comparison does not reduce). -/
def ratLtB (a b : ℚ) : Bool := decide (a.num * (b.den : Int) < b.num * (a.den : Int))

/-- The boolean comparison agrees with the order on `ℚ`. -/
theorem ratLtB_iff (a b : ℚ) : ratLtB a b = true ↔ a < b := by
  rw [ratLtB, decide_eq_true_eq, ← Rat.lt_def]

/-- A driver computation: given the current driver state, produce a result
or an error, the new driver state, and the trace of bus events issued. -/
abbrev M (σ : Type) (α : Type) := DriverState σ → Except Err α × DriverState σ × List Event

/-- Return a pure value, touching nothing. -/
def mret {σ α : Type} (a : α) : M σ α := fun st => (Except.ok a, st, [])

/-- Sequence two driver computations; an error in the first short-circuits
the second, keeping the state reached so far (a Python exception aborts the
method body but the object keeps every assignment already made). -/
def mbind {σ α β : Type} (x : M σ α) (f : α → M σ β) : M σ β := fun st =>
  match x st with
  | (Except.ok a, st1, t1) =>
    match f a st1 with
    | (r, st2, t2) => (r, st2, t1 ++ t2)
  | (Except.error e, st1, t1) => (Except.error e, st1, t1)

/-- Lift a pure fallible computation (a lookup, a parse) into `M`. -/
def liftE {σ α : Type} (x : Except Err α) : M σ α := fun st => (x, st, [])

/-- Issue a raw write on the transport (records the event even on failure:
the attempt was made on the bus). -/
def wr {σ : Type} (T : Transport σ) (m : String) : M σ Unit := fun st =>
  match T.write m st.dev with
  | Except.ok d => (Except.ok (), { st with dev := d }, [Event.write m])
  | Except.error e => (Except.error e, st, [Event.write m])

/-- Issue a raw query on the transport. -/
def qu {σ : Type} (T : Transport σ) (m : String) : M σ String := fun st =>
  match T.query m st.dev with
  | Except.ok (r, d) => (Except.ok r, { st with dev := d }, [Event.query m])
  | Except.error e => (Except.error e, st, [Event.query m])

/-- Assignment `self.it = t`. -/
def putIT {σ : Type} (t : ℚ) : M σ Unit := fun st => (Except.ok (), { st with it := t }, [])

/-- Assignment `self.v = x`. -/
def putV {σ : Type} (x : ℚ) : M σ Unit := fun st => (Except.ok (), { st with v := x }, [])

/-- Value of a list of decimal digit characters, most significant first. -/
def digitsToNat (l : List Char) : Nat := l.foldl (fun a c => 10 * a + (c.toNat - 48)) 0

/-- True when the character list is a nonempty run of decimal digits. -/
def allDigits (l : List Char) : Bool := !l.isEmpty && l.all Char.isDigit

/-- Strip leading and trailing whitespace from a character list (Python
`str.strip`, as applied implicitly by `int(...)` and `float(...)`). -/
def listTrim (l : List Char) : List Char :=
  ((l.dropWhile Char.isWhitespace).reverse.dropWhile Char.isWhitespace).reverse

/-- Python `int(s)`: strip surrounding whitespace, accept an optional sign
followed by a nonempty digit run, otherwise raise `ValueError`. -/
def pyInt (s : String) : Except Err Int :=
  match listTrim s.toList with
  | '-' :: rest =>
    if allDigits rest then Except.ok (-(digitsToNat rest : Int)) else Except.error Err.valueError
  | '+' :: rest =>
    if allDigits rest then Except.ok ((digitsToNat rest : Int)) else Except.error Err.valueError
  | l =>
    if allDigits l then Except.ok ((digitsToNat l : Int)) else Except.error Err.valueError

/-- Python `s[:-1]`: the string with its final character removed (the empty
string is left unchanged). -/
def pyDropLast (s : String) : String := String.mk s.toList.dropLast

/-- Python list indexing `l[i]`: negative indices count from the end; an
index out of range on both conventions raises `IndexError`. -/
def pyIndex {α : Type} (l : List α) (i : Int) : Except Err α :=
  let j : Int := if i < 0 then i + l.length else i
  if 0 ≤ j ∧ j < l.length then
    match l.get? j.toNat with
    | some a => Except.ok a
    | none => Except.error Err.indexError
  else Except.error Err.indexError

/-- Split an optional leading sign off a character list, returning whether
the value is negated and the remainder. -/
def signSplit (l : List Char) : Bool × List Char :=
  match l with
  | '-' :: r => (true, r)
  | '+' :: r => (false, r)
  | _ => (false, l)

/-- Core of Python `float(s)` on an already-stripped character list:
optional sign, integer digits, optional fraction, optional exponent; at
least one digit must appear in the mantissa.  The value is exact, as a
rational. -/
def pyFloatCore (l : List Char) : Option ℚ :=
  let p1 := signSplit l
  let p2 := p1.2.span Char.isDigit
  let p3 := match p2.2 with
    | '.' :: r => r.span Char.isDigit
    | _ => (([] : List Char), p2.2)
  if p2.1.isEmpty && p3.1.isEmpty then none
  else
    let mant : Int := if p1.1 then -(digitsToNat (p2.1 ++ p3.1) : Int)
      else (digitsToNat (p2.1 ++ p3.1) : Int)
    match p3.2 with
    | [] => some (mkRat mant (10 ^ p3.1.length))
    | c :: r =>
      if c = 'e' ∨ c = 'E' then
        let q1 := signSplit r
        let q2 := q1.2.span Char.isDigit
        if q2.1.isEmpty || !q2.2.isEmpty then none
        else if q1.1 then some (mkRat mant (10 ^ p3.1.length * 10 ^ digitsToNat q2.1))
        else some (mkRat (mant * 10 ^ digitsToNat q2.1) (10 ^ p3.1.length))
      else none

/-- Python `float(s)`: strip surrounding whitespace then parse; anything
else raises `ValueError`. -/
def pyFloat (s : String) : Except Err ℚ :=
  match pyFloatCore (listTrim s.toList) with
  | some q => Except.ok q
  | none => Except.error Err.valueError

/-- Sensitivity dictionary `self.sens` of the source, in insertion order:
label to device-register index (kept as the string the source stores). -/
def sens : List (String × String) :=
  [("2nV", "0"), ("5nV", "1"), ("10nV", "2"),
   ("20nV", "3"), ("50nV", "4"), ("100nV", "5"),
   ("200nV", "6"), ("500nV", "7"), ("1uV", "8"),
   ("2uV", "9"), ("5uV", "10"), ("10uV", "11"),
   ("20uV", "12"), ("50uV", "13"), ("100uV", "14"),
   ("200uV", "15"), ("500uV", "16"), ("1mV", "17"),
   ("2mV", "18"), ("5mV", "19"), ("10mV", "20"),
   ("20mV", "21"), ("50mV", "22"), ("100mV", "23"),
   ("200mV", "24"), ("500mV", "25"), ("1V", "26")]

/-- Sensitivity list `self.volt` of the source: the same scales as exact
rationals, in volts. -/
def volt : List ℚ :=
  [mkRat 2 1000000000, mkRat 5 1000000000, mkRat 1 100000000,
   mkRat 2 100000000, mkRat 5 100000000, mkRat 1 10000000,
   mkRat 2 10000000, mkRat 5 10000000, mkRat 1 1000000,
   mkRat 2 1000000, mkRat 5 1000000, mkRat 1 100000,
   mkRat 2 100000, mkRat 5 100000, mkRat 1 10000,
   mkRat 2 10000, mkRat 5 10000, mkRat 1 1000,
   mkRat 2 1000, mkRat 5 1000, mkRat 1 100,
   mkRat 2 100, mkRat 5 100, mkRat 1 10,
   mkRat 2 10, mkRat 5 10, 1]

/-- Time-constant dictionary `self.oflt` of the source, in insertion
order: label to device-register index string. -/
def oflt : List (String × String) :=
  [("10us", "0"), ("30us", "1"), ("100us", "2"),
   ("300us", "3"), ("1ms", "4"), ("3ms", "5"),
   ("10ms", "6"), ("30ms", "7"), ("100ms", "8"),
   ("300ms", "9"), ("1s", "10"), ("3s", "11"),
   ("10s", "12"), ("30s", "13"), ("100s", "14"),
   ("300s", "15"), ("1ks", "16"), ("3ks", "17"),
   ("10ks", "18"), ("30ks", "19")]

/-- Time-constant list `self.time` of the source: seconds, exact. -/
def time : List ℚ :=
  [mkRat 1 100000, mkRat 3 100000, mkRat 1 10000, mkRat 3 10000,
   mkRat 1 1000, mkRat 3 1000, mkRat 1 100, mkRat 3 100, mkRat 1 10, mkRat 3 10,
   1, 3, 10, 30, 100, 300,
   1000, 3000, 10000, 30000]

/-- Keys of `self.oflt` in insertion order (Python `list(self.oflt.keys())`). -/
def ofltKeys : List String := oflt.map Prod.fst

/-- Keys of `self.sens` in insertion order (Python `list(self.sens.keys())`). -/
def sensKeys : List String := sens.map Prod.fst

/-- Python dictionary access `d[k]`: the value at the first matching key,
`KeyError` when absent. -/
def dictGet (d : List (String × String)) (k : String) : Except Err String :=
  match d.lookup k with
  | some v => Except.ok v
  | none => Except.error Err.keyError

/-- Method `setIT(name, i)`: with a label, look it up, write the register,
re-query, parse dropping the final character, and cache the seconds value
from the table; with an index only, write it and cache `self.time[i]`
directly (no confirming read). -/
def setIT {σ : Type} (T : Transport σ) (name : Option String) (i : Int) : M σ Unit :=
  match name with
  | some nm =>
    mbind (liftE (dictGet oflt nm)) (fun code =>
    mbind (wr T ("OFLT " ++ code)) (fun _ =>
    mbind (qu T "OFLT ?") (fun resp =>
    mbind (liftE (pyInt (pyDropLast resp))) (fun n =>
    mbind (liftE (pyIndex time n)) (fun t =>
    putIT t)))))
  | none =>
    mbind (wr T ("OFLT " ++ toString i)) (fun _ =>
    mbind (liftE (pyIndex time i)) (fun t =>
    putIT t))

/-- Method `getIT()`: query the register, parse dropping the final
character, and return the key of `self.oflt` at that position. -/
def getIT {σ : Type} (T : Transport σ) : M σ String :=
  mbind (qu T "OFLT ?") (fun resp =>
  mbind (liftE (pyInt (pyDropLast resp))) (fun n =>
  liftE (pyIndex ofltKeys n)))

/-- Method `setSens(name, i)`: as `setIT` but against `self.sens` and
`self.volt`, caching `self.v`. -/
def setSens {σ : Type} (T : Transport σ) (name : Option String) (i : Int) : M σ Unit :=
  match name with
  | some nm =>
    mbind (liftE (dictGet sens nm)) (fun code =>
    mbind (wr T ("SENS " ++ code)) (fun _ =>
    mbind (qu T "SENS ?") (fun resp =>
    mbind (liftE (pyInt (pyDropLast resp))) (fun n =>
    mbind (liftE (pyIndex volt n)) (fun x =>
    putV x)))))
  | none =>
    mbind (wr T ("SENS " ++ toString i)) (fun _ =>
    mbind (liftE (pyIndex volt i)) (fun x =>
    putV x))

/-- Method `getSens()`: query, parse dropping the final character, return
the key of `self.sens` at that position. -/
def getSens {σ : Type} (T : Transport σ) : M σ String :=
  mbind (qu T "SENS ?") (fun resp =>
  mbind (liftE (pyInt (pyDropLast resp))) (fun n =>
  liftE (pyIndex sensKeys n)))

/-- Method `getFreq()`: query the reference frequency and convert the full
response with `float(...)` (no character stripped). -/
def getFreq {σ : Type} (T : Transport σ) : M σ ℚ :=
  mbind (qu T "FREQ ?") (fun resp => liftE (pyFloat resp))

/-- Method `setSync(i)`: write the register, then read the frequency and
print an advisory when it exceeds 200 Hz and the filter was being enabled.
The returned boolean records whether the advisory was printed; nothing is
raised either way. -/
def setSync {σ : Type} (T : Transport σ) (i : Int) : M σ Bool :=
  mbind (wr T ("SYNC " ++ toString i)) (fun _ =>
  mbind (getFreq T) (fun f =>
  mret (ratLtB 200 f && decide (i = 1))))

/-- Method `getSync()`: query the register, parse dropping the final
character, and index into the literal list `["ON", "OFF"]`. -/
def getSync {σ : Type} (T : Transport σ) : M σ String :=
  mbind (qu T "SYNC ?") (fun resp =>
  mbind (liftE (pyInt (pyDropLast resp))) (fun n =>
  liftE (pyIndex ["ON", "OFF"] n)))

/-- Method `getOut(i)`: `assert i<5 and i>0` before any bus traffic, then
query the output channel and convert the full response with `float(...)`. -/
def getOut {σ : Type} (T : Transport σ) (i : Int) : M σ ℚ :=
  if i < 5 ∧ 0 < i then
    mbind (qu T ("OUTP? " ++ toString i)) (fun resp => liftE (pyFloat resp))
  else liftE (Except.error Err.assertionError)

/-- Method `write(message, q)`: a raw query when `q` is true, a raw write
otherwise.  The Python body has no `return`, so the method yields `None`
in both cases; the query's response is discarded. -/
def write {σ : Type} (T : Transport σ) (message : String) (q : Bool) : M σ (Option String) :=
  if q then mbind (qu T message) (fun _ => mret none)
  else mbind (wr T message) (fun _ => mret none)

/-- Constructor body after opening the connection: identity query, default
`setSync()`, then seed both caches from the live registers using the same
drop-final-character parse as the getters. -/
def init {σ : Type} (T : Transport σ) : M σ Unit :=
  mbind (qu T "*IDN?") (fun _ =>
  mbind (setSync T 1) (fun _ =>
  mbind (qu T "OFLT ?") (fun r1 =>
  mbind (liftE (pyInt (pyDropLast r1))) (fun n1 =>
  mbind (liftE (pyIndex time n1)) (fun t =>
  mbind (putIT t) (fun _ =>
  mbind (qu T "SENS ?") (fun r2 =>
  mbind (liftE (pyInt (pyDropLast r2))) (fun n2 =>
  mbind (liftE (pyIndex volt n2)) (fun x =>
  putV x)))))))))

/-- Concrete device model used to instantiate the abstract transport: the
three registers the driver writes, plus the raw strings the device would
answer to a frequency or output-channel query. -/
structure Dev where
  oflt : Int
  sens : Int
  sync : Int
  freqResp : String
  outResp : String
deriving DecidableEq

/-- Remove a leading character run `p` from `s`, or fail. -/
def listDropPre : List Char → List Char → Option (List Char)
  | [], s => some s
  | _ :: _, [] => none
  | p :: ps, c :: cs => if p = c then listDropPre ps cs else none

/-- Remove a leading literal `p` from the string `s`, or fail. -/
def dropPre (p s : String) : Option String :=
  match listDropPre p.toList s.toList with
  | some r => some (String.mk r)
  | none => none

/-- Register write of the faithful device: parse the command, store the
written value in the named register; unknown or malformed commands are
ignored. -/
def devWrite (m : String) (d : Dev) : Except Err Dev :=
  match dropPre "OFLT " m with
  | some r =>
    Except.ok (match pyInt r with | Except.ok n => { d with oflt := n } | Except.error _ => d)
  | none =>
  match dropPre "SENS " m with
  | some r =>
    Except.ok (match pyInt r with | Except.ok n => { d with sens := n } | Except.error _ => d)
  | none =>
  match dropPre "SYNC " m with
  | some r =>
    Except.ok (match pyInt r with | Except.ok n => { d with sync := n } | Except.error _ => d)
  | none => Except.ok d

/-- Register query of the faithful device: echo the stored register value
followed by a single terminator character, exactly as the driver's
drop-final-character parse expects. -/
def devQuery (m : String) (d : Dev) : Except Err (String × Dev) :=
  if m = "OFLT ?" then Except.ok (toString d.oflt ++ "\n", d)
  else if m = "SENS ?" then Except.ok (toString d.sens ++ "\n", d)
  else if m = "SYNC ?" then Except.ok (toString d.sync ++ "\n", d)
  else if m = "FREQ ?" then Except.ok (d.freqResp, d)
  else
    match dropPre "OUTP? " m with
    | some _ => Except.ok (d.outResp, d)
    | none => Except.ok (d.freqResp, d)

/-- Transport over a device that faithfully stores every written register
value and echoes it back (the assumption under which the round-trip claims
are stated). -/
def faithfulT : Transport Dev where
  write := devWrite
  query := devQuery

/-- Transport whose writes always succeed without effect and whose queries
answer with a fixed response function, used to drive the parser claims. -/
def tableT (f : String → String) : Transport Dev where
  write := fun _ d => Except.ok d
  query := fun m d => Except.ok (f m, d)

/-- Transport on which every bus operation fails. -/
def failT : Transport Dev where
  write := fun _ _ => Except.error Err.commError
  query := fun _ _ => Except.error Err.commError

/-- Transport answering every query with the fixed string "PONG". -/
def echoT : Transport Dev where
  write := fun _ d => Except.ok d
  query := fun _ d => Except.ok ("PONG", d)

/-- A concrete device: all registers zero, 100 Hz reference, 0.5 V output. -/
def dev0 : Dev := ⟨0, 0, 0, "100.0\n", "0.5\n"⟩

/-- A concrete starting driver state over `dev0`. -/
def st0 : DriverState Dev := ⟨dev0, 1, mkRat 1 1000⟩

/-- A starting state whose device reports a 500 Hz reference frequency. -/
def st500 : DriverState Dev := ⟨⟨0, 0, 0, "500.0\n", "0.5\n"⟩, 1, mkRat 1 1000⟩

/-- Dropping the final character of a string that carries a single
trailing terminator recovers the untermainated payload exactly. -/
theorem pyDropLast_append_newline (s : String) : pyDropLast (s ++ "\n") = s := by
  apply String.ext
  show ((s ++ "\n").toList.dropLast) = s.data
  have h : (s ++ "\n").toList = s.data ++ ['\n'] := String.data_append s "\n"
  rw [h]
  simp

/-- Python indexing at a natural number in range returns the list entry. -/
theorem pyIndex_nat {α : Type} (l : List α) (k : Nat) (d : α) (h : k < l.length) :
    pyIndex l (k : Int) = Except.ok (l.getD k d) := by
  unfold pyIndex
  have h0 : ¬ ((k : Int) < 0) := by omega
  rw [if_neg h0, if_pos (by constructor <;> omega)]
  rw [Int.toNat_ofNat]
  rw [List.getD_eq_getElem?_getD, List.getElem?_eq_getElem h]
  simp [List.get?_eq_getElem?, List.getElem?_eq_getElem h]

/-- Python indexing outside both the forward and the backward range
raises `IndexError`. -/
theorem pyIndex_oob {α : Type} (l : List α) (i : Int)
    (h : (l.length : Int) ≤ i ∨ i < -(l.length : Int)) :
    pyIndex l i = Except.error Err.indexError := by
  simp only [pyIndex]
  split_ifs with h1 h2 <;> try rfl
  all_goals exfalso
  · rcases h with h | h <;> omega
  · rcases h with h | h <;> omega

/-- Unfolding `mbind` when the first computation succeeds. -/
theorem mbind_ok {σ α β : Type} {x : M σ α} {f : α → M σ β} {st : DriverState σ}
    {a : α} {st1 : DriverState σ} {t1 : List Event} (h : x st = (Except.ok a, st1, t1)) :
    mbind x f st = ((f a st1).1, (f a st1).2.1, t1 ++ (f a st1).2.2) := by
  unfold mbind
  rw [h]

/-- Unfolding `mbind` when the first computation fails. -/
theorem mbind_err {σ α β : Type} {x : M σ α} {f : α → M σ β} {st : DriverState σ}
    {e : Err} {st1 : DriverState σ} {t1 : List Event}
    (h : x st = (Except.error e, st1, t1)) :
    mbind x f st = (Except.error e, st1, t1) := by
  unfold mbind
  rw [h]

/-- A driver computation that never touches either cached scalar. -/
def cachePres {σ α : Type} (x : M σ α) : Prop :=
  ∀ st : DriverState σ, ((x st).2.1).it = st.it ∧ ((x st).2.1).v = st.v

/-- A driver computation whose error outcomes leave both cached scalars
unchanged. -/
def errCache {σ α : Type} (x : M σ α) : Prop :=
  ∀ (st : DriverState σ) (e : Err) (st2 : DriverState σ) (t : List Event),
    x st = (Except.error e, st2, t) → st2.it = st.it ∧ st2.v = st.v

theorem cachePres_mret {σ α : Type} (a : α) : cachePres (mret (σ := σ) a) := by
  intro st; exact ⟨rfl, rfl⟩

theorem cachePres_liftE {σ α : Type} (x : Except Err α) : cachePres (liftE (σ := σ) x) := by
  intro st; exact ⟨rfl, rfl⟩

theorem cachePres_wr {σ : Type} (T : Transport σ) (m : String) : cachePres (wr T m) := by
  intro st
  unfold wr
  cases T.write m st.dev with
  | ok d => exact ⟨rfl, rfl⟩
  | error e => exact ⟨rfl, rfl⟩

theorem cachePres_qu {σ : Type} (T : Transport σ) (m : String) : cachePres (qu T m) := by
  intro st
  unfold qu
  cases T.query m st.dev with
  | ok p => exact ⟨rfl, rfl⟩
  | error e => exact ⟨rfl, rfl⟩

theorem cachePres_mbind {σ α β : Type} {x : M σ α} {f : α → M σ β}
    (hx : cachePres x) (hf : ∀ a, cachePres (f a)) : cachePres (mbind x f) := by
  intro st
  rcases hres : x st with ⟨r, st1, t1⟩
  have hx1 := hx st
  rw [hres] at hx1
  cases r with
  | error e => rw [mbind_err hres]; exact hx1
  | ok a =>
    rw [mbind_ok hres]
    have hf1 := hf a st1
    exact ⟨hf1.1.trans hx1.1, hf1.2.trans hx1.2⟩

theorem errCache_of_cachePres {σ α : Type} {x : M σ α} (hx : cachePres x) : errCache x := by
  intro st e st2 t h
  have := hx st
  rw [h] at this
  exact this

theorem errCache_putIT {σ : Type} (t : ℚ) : errCache (putIT (σ := σ) t) := by
  intro st e st2 tr h
  exact absurd h (by simp [putIT])

theorem errCache_putV {σ : Type} (x : ℚ) : errCache (putV (σ := σ) x) := by
  intro st e st2 tr h
  exact absurd h (by simp [putV])

theorem errCache_mbind {σ α β : Type} {x : M σ α} {f : α → M σ β}
    (hx : cachePres x) (hf : ∀ a, errCache (f a)) : errCache (mbind x f) := by
  intro st e st2 t h
  rcases hres : x st with ⟨r, st1, t1⟩
  have hx1 := hx st
  rw [hres] at hx1
  cases r with
  | error e2 =>
    rw [mbind_err hres] at h
    injection h with h1 h2
    injection h2 with h2 h3
    subst h2
    exact hx1
  | ok a =>
    rw [mbind_ok hres] at h
    rcases hres2 : f a st1 with ⟨r2, st2b, t2⟩
    rw [hres2] at h
    dsimp only at h
    injection h with h1 h2
    injection h2 with h2 h3
    subst h1
    subst h2
    have hf1 := hf a st1 e st2b t2 hres2
    exact ⟨hf1.1.trans hx1.1, hf1.2.trans hx1.2⟩

theorem errCache_setIT {σ : Type} (T : Transport σ) (name : Option String) (i : Int) :
    errCache (setIT T name i) := by
  cases name with
  | some nm =>
    exact errCache_mbind (cachePres_liftE _) (fun code =>
      errCache_mbind (cachePres_wr T _) (fun _ =>
      errCache_mbind (cachePres_qu T _) (fun resp =>
      errCache_mbind (cachePres_liftE _) (fun n =>
      errCache_mbind (cachePres_liftE _) (fun t =>
      errCache_putIT t)))))
  | none =>
    exact errCache_mbind (cachePres_wr T _) (fun _ =>
      errCache_mbind (cachePres_liftE _) (fun t =>
      errCache_putIT t))

theorem errCache_setSens {σ : Type} (T : Transport σ) (name : Option String) (i : Int) :
    errCache (setSens T name i) := by
  cases name with
  | some nm =>
    exact errCache_mbind (cachePres_liftE _) (fun code =>
      errCache_mbind (cachePres_wr T _) (fun _ =>
      errCache_mbind (cachePres_qu T _) (fun resp =>
      errCache_mbind (cachePres_liftE _) (fun n =>
      errCache_mbind (cachePres_liftE _) (fun x =>
      errCache_putV x)))))
  | none =>
    exact errCache_mbind (cachePres_wr T _) (fun _ =>
      errCache_mbind (cachePres_liftE _) (fun x =>
      errCache_putV x))

theorem cachePres_setSync {σ : Type} (T : Transport σ) (i : Int) :
    cachePres (setSync T i) := by
  exact cachePres_mbind (cachePres_wr T _) (fun _ =>
    cachePres_mbind (cachePres_mbind (cachePres_qu T _) (fun resp => cachePres_liftE _))
      (fun f => cachePres_mret _))

/-- C6: the sensitivity table has exactly 27 entries with strictly
increasing full-scale volts and the time-constant table exactly 20 entries
with strictly increasing seconds; the device code stored for each label is
the decimal rendering of its position index, and labels, codes and
physical values are pairwise distinct, so the mappings
label ↔ index ↔ physical value are bijections. -/
theorem c6_table_invariants :
    sens.length = 27 ∧ volt.length = 27 ∧ oflt.length = 20 ∧ time.length = 20 ∧
    List.Chain' (· < ·) volt ∧
    List.Chain' (· < ·) time ∧
    sens.map Prod.snd = (List.range 27).map (fun k => toString k) ∧
    oflt.map Prod.snd = (List.range 20).map (fun k => toString k) ∧
    (sens.map Prod.fst).Nodup ∧ (oflt.map Prod.fst).Nodup ∧
    volt.Nodup ∧ time.Nodup := by
  refine ⟨by decide, by decide, by decide, by decide, ?_, ?_,
    by decide, by decide, by decide, by decide, by decide, by decide⟩
  · simp only [volt, List.chain'_cons, List.chain'_singleton, Rat.mkRat_eq_div]
    norm_num
  · simp only [time, List.chain'_cons, List.chain'_singleton, Rat.mkRat_eq_div]
    norm_num

/-- C5: whenever a set-operation ends in an error — no matter where in its
body (label lookup, register write, confirming read, response parse, or
table lookup) the error arises, and over an arbitrary transport — both
cached scalars (`self.it`, seconds, and `self.v`, volts) are exactly what
they were before the call. -/
theorem c5_cache_unchanged_on_failure :
    ∀ (σ : Type) (T : Transport σ) (name : Option String) (i : Int)
      (st st2 : DriverState σ) (e : Err) (tr : List Event),
      (setIT T name i st = (Except.error e, st2, tr) → st2.it = st.it ∧ st2.v = st.v) ∧
      (setSens T name i st = (Except.error e, st2, tr) → st2.it = st.it ∧ st2.v = st.v) := by
  intro σ T name i st st2 e tr
  exact ⟨fun h => errCache_setIT T name i st e st2 tr h,
         fun h => errCache_setSens T name i st e st2 tr h⟩

/-- Witness for C5: on a transport whose writes fail, both set-operations
fail and the caches are untouched. -/
theorem c5_witness : (st0.it = st0.it ∧ st0.v = st0.v) ∧ (st0.it = st0.it ∧ st0.v = st0.v) :=
  ⟨(c5_cache_unchanged_on_failure Dev failT (some "1s") 10 st0 st0 Err.commError
      [Event.write "OFLT 10"]).1 rfl,
   (c5_cache_unchanged_on_failure Dev failT (some "1mV") 11 st0 st0 Err.commError
      [Event.write "SENS 17"]).2 rfl⟩

/-- C3 counterexample: `setIT` called with label omitted and index `-1`
does not fail at all — Python negative indexing makes it silently succeed,
caching the last table entry (30000 s), after having already written the
raw command "OFLT -1" to the device. -/
theorem c3_counterexample :
    setIT faithfulT none (-1) st0
      = (Except.ok (), ⟨{ dev0 with oflt := -1 }, 30000, mkRat 1 1000⟩,
         [Event.write "OFLT -1"]) := by decide

/-- C3 amended: an index-only set-operation fails (with the index error
standing for InvalidArgument) exactly when the index is out of range on
Python's two-sided convention — at or above the table length, or strictly
below its negation — and even then only after the raw index has already
been written to the device; indices in `-len .. -1` silently succeed. -/
theorem c3_amended_oob_fails :
    ∀ (σ : Type) (T : Transport σ) (st : DriverState σ) (i : Int) (d1 : σ),
      ((20 ≤ i ∨ i < -20) → T.write ("OFLT " ++ toString i) st.dev = Except.ok d1 →
        setIT T none i st
          = (Except.error Err.indexError, ⟨d1, st.it, st.v⟩,
             [Event.write ("OFLT " ++ toString i)])) ∧
      ((27 ≤ i ∨ i < -27) → T.write ("SENS " ++ toString i) st.dev = Except.ok d1 →
        setSens T none i st
          = (Except.error Err.indexError, ⟨d1, st.it, st.v⟩,
             [Event.write ("SENS " ++ toString i)])) := by
  intro σ T st i d1
  constructor
  · intro hrange hw
    have hwr : wr T ("OFLT " ++ toString i) st
        = (Except.ok (), ⟨d1, st.it, st.v⟩, [Event.write ("OFLT " ++ toString i)]) := by
      unfold wr; rw [hw]
    have hlen : ((time.length : Int) ≤ i ∨ i < -(time.length : Int)) := by
      have h20 : (time.length : Int) = 20 := by decide
      rw [h20]; exact hrange
    have hpi : pyIndex time i = Except.error Err.indexError := pyIndex_oob time i hlen
    have hlift : liftE (σ := σ) (pyIndex time i) (⟨d1, st.it, st.v⟩ : DriverState σ)
        = (Except.error Err.indexError, ⟨d1, st.it, st.v⟩, []) := by
      unfold liftE; rw [hpi]
    show mbind (wr T ("OFLT " ++ toString i))
        (fun _ => mbind (liftE (pyIndex time i)) (fun t => putIT t)) st = _
    rw [mbind_ok hwr, mbind_err hlift]
    rfl
  · intro hrange hw
    have hwr : wr T ("SENS " ++ toString i) st
        = (Except.ok (), ⟨d1, st.it, st.v⟩, [Event.write ("SENS " ++ toString i)]) := by
      unfold wr; rw [hw]
    have hlen : ((volt.length : Int) ≤ i ∨ i < -(volt.length : Int)) := by
      have h27 : (volt.length : Int) = 27 := by decide
      rw [h27]; exact hrange
    have hpi : pyIndex volt i = Except.error Err.indexError := pyIndex_oob volt i hlen
    have hlift : liftE (σ := σ) (pyIndex volt i) (⟨d1, st.it, st.v⟩ : DriverState σ)
        = (Except.error Err.indexError, ⟨d1, st.it, st.v⟩, []) := by
      unfold liftE; rw [hpi]
    show mbind (wr T ("SENS " ++ toString i))
        (fun _ => mbind (liftE (pyIndex volt i)) (fun x => putV x)) st = _
    rw [mbind_ok hwr, mbind_err hlift]
    rfl

/-- Witness for C3's amended statement: index 20 fails `setIT` and index
27 fails `setSens` on the faithful device, the write having gone out. -/
theorem c3_amended_witness :
    setIT faithfulT none 20 st0
      = (Except.error Err.indexError, ⟨{ dev0 with oflt := 20 }, st0.it, st0.v⟩,
         [Event.write ("OFLT " ++ toString (20 : Int))]) ∧
    setSens faithfulT none 27 st0
      = (Except.error Err.indexError, ⟨{ dev0 with sens := 27 }, st0.it, st0.v⟩,
         [Event.write ("SENS " ++ toString (27 : Int))]) :=
  ⟨(c3_amended_oob_fails Dev faithfulT st0 20 { dev0 with oflt := 20 }).1
      (Or.inl (by decide)) (by decide),
   (c3_amended_oob_fails Dev faithfulT st0 27 { dev0 with sens := 27 }).2
      (Or.inl (by decide)) (by decide)⟩

/-- C7: with the label omitted, `setSens` at any index `k < 27` (over an
arbitrary transport whose write succeeds) succeeds and leaves the cached
sensitivity equal to the table entry `volt[k]`, updating nothing else of
the driver's own state. -/
theorem c7_index_sets_cached_volts :
    ∀ (σ : Type) (T : Transport σ) (st : DriverState σ) (k : Nat) (d1 : σ),
      k < 27 → T.write ("SENS " ++ toString (k : Int)) st.dev = Except.ok d1 →
      setSens T none (k : Int) st
        = (Except.ok (), ⟨d1, st.it, volt.getD k 0⟩,
           [Event.write ("SENS " ++ toString (k : Int))]) := by
  intro σ T st k d1 hk hw
  have hwr : wr T ("SENS " ++ toString (k : Int)) st
      = (Except.ok (), ⟨d1, st.it, st.v⟩, [Event.write ("SENS " ++ toString (k : Int))]) := by
    unfold wr; rw [hw]
  have hkl : k < volt.length := by
    have : volt.length = 27 := by decide
    omega
  have hpi : pyIndex volt (k : Int) = Except.ok (volt.getD k 0) := pyIndex_nat volt k 0 hkl
  have hlift : liftE (σ := σ) (pyIndex volt (k : Int)) (⟨d1, st.it, st.v⟩ : DriverState σ)
      = (Except.ok (volt.getD k 0), ⟨d1, st.it, st.v⟩, []) := by
    unfold liftE; rw [hpi]
  show mbind (wr T ("SENS " ++ toString (k : Int)))
      (fun _ => mbind (liftE (pyIndex volt (k : Int))) (fun x => putV x)) st = _
  rw [mbind_ok hwr, mbind_ok hlift]
  rfl

/-- Witness for C7: index 17 caches `volt[17]` (1 mV) on the faithful
device. -/
theorem c7_witness :
    setSens faithfulT none ((17 : Nat) : Int) st0
      = (Except.ok (), ⟨{ dev0 with sens := 17 }, st0.it, volt.getD 17 0⟩,
         [Event.write ("SENS " ++ toString ((17 : Nat) : Int))]) :=
  c7_index_sets_cached_volts Dev faithfulT st0 17 { dev0 with sens := 17 }
    (by decide) (by decide)

/-- C8: `getOut` on any channel index outside 1..4 fails on its assertion
before issuing any bus traffic, leaving the driver state untouched; on a
channel inside 1..4 it issues exactly the one query and returns the
response converted by `float(...)`. -/
theorem c8_getOut_validates_channel :
    (∀ (σ : Type) (T : Transport σ) (st : DriverState σ) (i : Int), i < 1 ∨ 4 < i →
      getOut T i st = (Except.error Err.assertionError, st, [])) ∧
    (∀ (σ : Type) (T : Transport σ) (st : DriverState σ) (i : Int) (r : String) (d1 : σ) (x : ℚ),
      0 < i → i < 5 →
      T.query ("OUTP? " ++ toString i) st.dev = Except.ok (r, d1) →
      pyFloat r = Except.ok x →
      getOut T i st
        = (Except.ok x, ⟨d1, st.it, st.v⟩, [Event.query ("OUTP? " ++ toString i)])) := by
  constructor
  · intro σ T st i hi
    unfold getOut
    rw [if_neg (by omega)]
    rfl
  · intro σ T st i r d1 x h0 h5 hq hx
    unfold getOut
    rw [if_pos ⟨h5, h0⟩]
    have hqu : qu T ("OUTP? " ++ toString i) st
        = (Except.ok r, ⟨d1, st.it, st.v⟩, [Event.query ("OUTP? " ++ toString i)]) := by
      unfold qu; rw [hq]
    have hlift : liftE (σ := σ) (pyFloat r) (⟨d1, st.it, st.v⟩ : DriverState σ)
        = (Except.ok x, ⟨d1, st.it, st.v⟩, []) := by
      unfold liftE; rw [hx]
    rw [mbind_ok hqu, hlift]
    rfl

/-- Witness for C8: channel 0 is rejected without bus traffic; channel 3
returns the parsed output value 0.5 V on the faithful device. -/
theorem c8_witness :
    getOut faithfulT 0 st0 = (Except.error Err.assertionError, st0, []) ∧
    getOut faithfulT 3 st0
      = (Except.ok (mkRat 1 2), ⟨dev0, st0.it, st0.v⟩,
         [Event.query ("OUTP? " ++ toString (3 : Int))]) :=
  ⟨c8_getOut_validates_channel.1 Dev faithfulT st0 0 (Or.inl (by decide)),
   c8_getOut_validates_channel.2 Dev faithfulT st0 3 "0.5\n" dev0 (mkRat 1 2)
     (by decide) (by decide) (by decide) (by decide)⟩

/-- C2: evaluation of `getSync` against a device that echoes its register
faithfully shows the label mapping inverted with respect to `setSync`'s
own documented encoding (0 = OFF, 1 = ON): after enabling the filter the
register holds 1, yet `getSync` reports "OFF", and with register 0 it
reports "ON". -/
theorem c2_getSync_labels_inverted :
    (setSync faithfulT 1 st0).2.1.dev.sync = 1 ∧
    (getSync faithfulT ((setSync faithfulT 1 st0).2.1)).1 = Except.ok "OFF" ∧
    (getSync faithfulT ⟨{ dev0 with sync := 0 }, 1, 1⟩).1 = Except.ok "ON" := by
  exact ⟨by decide, by decide, by decide⟩

/-- C4 counterexample: on a transport that answers "PONG" to every query,
`write("PING", q=true)` performs the query but evaluates to `None`,
not to the raw response "PONG" — the Python body has no return statement,
so the response is discarded rather than returned to the caller. -/
theorem c4_counterexample :
    echoT.query "PING" st0.dev = Except.ok ("PONG", st0.dev) ∧
    (write echoT "PING" true st0).1 = Except.ok none ∧
    (write echoT "PING" true st0).1 ≠ Except.ok (some "PONG") := by
  exact ⟨rfl, rfl, by decide⟩

/-- C4 amended: `write(m, q=true)` issues exactly the one raw query and,
when it succeeds, returns no value (Python `None`), discarding the
response; `write(m, q=false)` issues exactly the one raw write and
likewise returns no value. -/
theorem c4_amended_write_discards_response :
    ∀ (σ : Type) (T : Transport σ) (m : String) (st : DriverState σ),
      (write T m true st).2.2 = [Event.query m] ∧
      (∀ a, (write T m true st).1 = Except.ok a → a = none) ∧
      (write T m false st).2.2 = [Event.write m] ∧
      (∀ a, (write T m false st).1 = Except.ok a → a = none) := by
  intro σ T m st
  refine ⟨?_, ?_, ?_, ?_⟩
  · show (mbind (qu T m) (fun _ => mret none) st).2.2 = [Event.query m]
    cases hTq : T.query m st.dev with
    | ok p =>
      rw [mbind_ok (show qu T m st = (Except.ok p.1, ⟨p.2, st.it, st.v⟩, [Event.query m]) by
        unfold qu; rw [hTq])]
      rfl
    | error e =>
      rw [mbind_err (show qu T m st = (Except.error e, st, [Event.query m]) by
        unfold qu; rw [hTq])]
  · intro a ha
    rw [show (write T m true st).1 = (mbind (qu T m) (fun _ => mret none) st).1 from rfl] at ha
    cases hTq : T.query m st.dev with
    | ok p =>
      rw [mbind_ok (show qu T m st = (Except.ok p.1, ⟨p.2, st.it, st.v⟩, [Event.query m]) by
        unfold qu; rw [hTq])] at ha
      injection ha with h
      exact h.symm
    | error e =>
      rw [mbind_err (show qu T m st = (Except.error e, st, [Event.query m]) by
        unfold qu; rw [hTq])] at ha
      injection ha
  · show (mbind (wr T m) (fun _ => mret none) st).2.2 = [Event.write m]
    cases hTw : T.write m st.dev with
    | ok d =>
      rw [mbind_ok (show wr T m st = (Except.ok (), ⟨d, st.it, st.v⟩, [Event.write m]) by
        unfold wr; rw [hTw])]
      rfl
    | error e =>
      rw [mbind_err (show wr T m st = (Except.error e, st, [Event.write m]) by
        unfold wr; rw [hTw])]
  · intro a ha
    rw [show (write T m false st).1 = (mbind (wr T m) (fun _ => mret none) st).1 from rfl] at ha
    cases hTw : T.write m st.dev with
    | ok d =>
      rw [mbind_ok (show wr T m st = (Except.ok (), ⟨d, st.it, st.v⟩, [Event.write m]) by
        unfold wr; rw [hTw])] at ha
      injection ha with h
      exact h.symm
    | error e =>
      rw [mbind_err (show wr T m st = (Except.error e, st, [Event.write m]) by
        unfold wr; rw [hTw])] at ha
      injection ha

/-- Witness for C4's amended statement: the query goes out on the bus and
the successful call returns `none`. -/
theorem c4_amended_witness :
    (write echoT "PING" true st0).2.2 = [Event.query "PING"] ∧ (none : Option String) = none :=
  ⟨(c4_amended_write_discards_response Dev echoT "PING" st0).1,
   (c4_amended_write_discards_response Dev echoT "PING" st0).2.1 none rfl⟩

/-- C9: enabling the sync filter on the faithful device never raises: the
"SYNC 1" write goes out first, then the frequency is read; when it exceeds
200 Hz the call merely reports the advisory (result `true`) with the
register nevertheless set to 1, when it is at most 200 Hz there is no
advisory (result `false`), and disabling never produces an advisory. -/
theorem c9_setSync_advisory :
    ∀ (st : DriverState Dev) (f : ℚ), pyFloat st.dev.freqResp = Except.ok f →
      (200 < f →
        setSync faithfulT 1 st
          = (Except.ok true, ⟨{ st.dev with sync := 1 }, st.it, st.v⟩,
             [Event.write "SYNC 1", Event.query "FREQ ?"])) ∧
      (f ≤ 200 →
        setSync faithfulT 1 st
          = (Except.ok false, ⟨{ st.dev with sync := 1 }, st.it, st.v⟩,
             [Event.write "SYNC 1", Event.query "FREQ ?"])) ∧
      setSync faithfulT 0 st
        = (Except.ok false, ⟨{ st.dev with sync := 0 }, st.it, st.v⟩,
           [Event.write "SYNC 0", Event.query "FREQ ?"]) := by
  intro st f hf
  have hw1 : wr faithfulT "SYNC 1" st
      = (Except.ok (), ⟨{ st.dev with sync := 1 }, st.it, st.v⟩, [Event.write "SYNC 1"]) := rfl
  have hw0 : wr faithfulT "SYNC 0" st
      = (Except.ok (), ⟨{ st.dev with sync := 0 }, st.it, st.v⟩, [Event.write "SYNC 0"]) := rfl
  have hq1 : qu faithfulT "FREQ ?" (⟨{ st.dev with sync := 1 }, st.it, st.v⟩ : DriverState Dev)
      = (Except.ok st.dev.freqResp, ⟨{ st.dev with sync := 1 }, st.it, st.v⟩,
         [Event.query "FREQ ?"]) := rfl
  have hq0 : qu faithfulT "FREQ ?" (⟨{ st.dev with sync := 0 }, st.it, st.v⟩ : DriverState Dev)
      = (Except.ok st.dev.freqResp, ⟨{ st.dev with sync := 0 }, st.it, st.v⟩,
         [Event.query "FREQ ?"]) := rfl
  have hfreq1 : getFreq faithfulT (⟨{ st.dev with sync := 1 }, st.it, st.v⟩ : DriverState Dev)
      = (Except.ok f, ⟨{ st.dev with sync := 1 }, st.it, st.v⟩, [Event.query "FREQ ?"]) := by
    show mbind (qu faithfulT "FREQ ?") _ _ = _
    rw [mbind_ok hq1]
    have hlift : liftE (σ := Dev) (pyFloat st.dev.freqResp)
        (⟨{ st.dev with sync := 1 }, st.it, st.v⟩ : DriverState Dev)
        = (Except.ok f, ⟨{ st.dev with sync := 1 }, st.it, st.v⟩, []) := by
      unfold liftE; rw [hf]
    rw [hlift]
    rfl
  have hfreq0 : getFreq faithfulT (⟨{ st.dev with sync := 0 }, st.it, st.v⟩ : DriverState Dev)
      = (Except.ok f, ⟨{ st.dev with sync := 0 }, st.it, st.v⟩, [Event.query "FREQ ?"]) := by
    show mbind (qu faithfulT "FREQ ?") _ _ = _
    rw [mbind_ok hq0]
    have hlift : liftE (σ := Dev) (pyFloat st.dev.freqResp)
        (⟨{ st.dev with sync := 0 }, st.it, st.v⟩ : DriverState Dev)
        = (Except.ok f, ⟨{ st.dev with sync := 0 }, st.it, st.v⟩, []) := by
      unfold liftE; rw [hf]
    rw [hlift]
    rfl
  have hrun1 : setSync faithfulT 1 st
      = (Except.ok (ratLtB 200 f && decide ((1 : Int) = 1)),
         ⟨{ st.dev with sync := 1 }, st.it, st.v⟩,
         [Event.write "SYNC 1", Event.query "FREQ ?"]) := by
    show mbind (wr faithfulT "SYNC 1")
      (fun _ => mbind (getFreq faithfulT)
        (fun f2 => mret (ratLtB 200 f2 && decide ((1 : Int) = 1)))) st = _
    rw [mbind_ok hw1, mbind_ok hfreq1]
    rfl
  have hrun0 : setSync faithfulT 0 st
      = (Except.ok (ratLtB 200 f && decide ((0 : Int) = 1)),
         ⟨{ st.dev with sync := 0 }, st.it, st.v⟩,
         [Event.write "SYNC 0", Event.query "FREQ ?"]) := by
    show mbind (wr faithfulT "SYNC 0")
      (fun _ => mbind (getFreq faithfulT)
        (fun f2 => mret (ratLtB 200 f2 && decide ((0 : Int) = 1)))) st = _
    rw [mbind_ok hw0, mbind_ok hfreq0]
    rfl
  refine ⟨?_, ?_, ?_⟩
  · intro h200
    rw [hrun1, (ratLtB_iff 200 f).mpr h200]
    rfl
  · intro h200
    have hb : ratLtB 200 f = false := by
      cases hb : ratLtB 200 f
      · rfl
      · exact absurd ((ratLtB_iff 200 f).mp hb) (not_lt.mpr h200)
    rw [hrun1, hb]
    rfl
  · rw [hrun0]
    simp

/-- Witness for C9: at 500 Hz enabling yields the advisory, at 100 Hz it
does not, and disabling at 100 Hz does not. -/
theorem c9_witness :
    setSync faithfulT 1 st500
      = (Except.ok true, ⟨{ st500.dev with sync := 1 }, st500.it, st500.v⟩,
         [Event.write "SYNC 1", Event.query "FREQ ?"]) ∧
    setSync faithfulT 1 st0
      = (Except.ok false, ⟨{ st0.dev with sync := 1 }, st0.it, st0.v⟩,
         [Event.write "SYNC 1", Event.query "FREQ ?"]) ∧
    setSync faithfulT 0 st0
      = (Except.ok false, ⟨{ st0.dev with sync := 0 }, st0.it, st0.v⟩,
         [Event.write "SYNC 0", Event.query "FREQ ?"]) :=
  ⟨(c9_setSync_advisory st500 500 (by decide)).1 (by norm_num),
   (c9_setSync_advisory st0 100 (by decide)).2.1 (by norm_num),
   (c9_setSync_advisory st0 100 (by decide)).2.2⟩

set_option maxHeartbeats 1600000 in
/-- C1: on a device that faithfully stores and echoes every written
register value, setting the integration time by any label of the
time-constant table and then reading it back returns that same label, and
likewise for every label of the sensitivity table, from any starting
driver state. -/
theorem c1_label_roundtrip :
    ∀ st : DriverState Dev,
      (∀ L, L ∈ ofltKeys →
        (setIT faithfulT (some L) 10 st).1 = Except.ok () ∧
        (getIT faithfulT ((setIT faithfulT (some L) 10 st).2.1)).1 = Except.ok L) ∧
      (∀ L, L ∈ sensKeys →
        (setSens faithfulT (some L) 11 st).1 = Except.ok () ∧
        (getSens faithfulT ((setSens faithfulT (some L) 11 st).2.1)).1 = Except.ok L) := by
  intro st
  constructor <;> intro L hL
  · simp only [ofltKeys, oflt, List.map_cons, List.map_nil] at hL
    fin_cases hL <;> exact ⟨rfl, rfl⟩
  · simp only [sensKeys, sens, List.map_cons, List.map_nil] at hL
    fin_cases hL <;> exact ⟨rfl, rfl⟩

/-- Witness for C1: the round-trip at the concrete labels "1s" and "1mV". -/
theorem c1_witness :
    ((setIT faithfulT (some "1s") 10 st0).1 = Except.ok () ∧
      (getIT faithfulT ((setIT faithfulT (some "1s") 10 st0).2.1)).1 = Except.ok "1s") ∧
    ((setSens faithfulT (some "1mV") 11 st0).1 = Except.ok () ∧
      (getSens faithfulT ((setSens faithfulT (some "1mV") 11 st0).2.1)).1 = Except.ok "1mV") :=
  ⟨(c1_label_roundtrip st0).1 "1s" (by decide),
   (c1_label_roundtrip st0).2 "1mV" (by decide)⟩

/-- Transport answering the same fixed string to every query, with writes
succeeding as no-ops; used to exercise the response parsers. -/
def respT (r : String) : Transport Dev := tableT (fun _ => r)

/-- C10 counterexample: a response carrying TWO trailing terminator
characters ("12" ++ "\n\n") is still parsed to the correct register value
12 — `int(...)` strips the remaining whitespace after one character is
dropped — so correct behaviour does not require the response to end in
exactly one terminator character. -/
theorem c10_counterexample :
    (respT ("12" ++ "\n\n")).query "OFLT ?" st0.dev = Except.ok ("12" ++ "\n\n", st0.dev) ∧
    (getIT (respT ("12" ++ "\n\n")) st0).1 = Except.ok "10s" := by
  exact ⟨rfl, rfl⟩

/-- C10 amended: every register-index parse (`getIT`, `getSync`, the
constructor's cache seeding) drops exactly the final character before
integer conversion, so correct behaviour requires at least one trailing
terminator: with one terminator "12\n" reads register 12 ("10s"); with no
terminator "12" misparses to register 1 ("30us", the last digit dropped)
and the constructor seeds both caches from position 1; a bare single digit
fails the conversion outright; extra trailing whitespace is tolerated by
the conversion.  The float paths (`getFreq`, `getOut`) convert the full
response with no character stripped. -/
theorem c10_amended_final_char_parse :
    (∀ s : String, pyDropLast (s ++ "\n") = s) ∧
    (getIT (respT "12\n") st0).1 = Except.ok "10s" ∧
    (getIT (respT "12") st0).1 = Except.ok "30us" ∧
    (getIT (respT "7") st0).1 = Except.error Err.valueError ∧
    (getSync (respT "1\n") st0).1 = Except.ok "OFF" ∧
    (init (respT "12") st0).2.1.it = time.getD 1 0 ∧
    (init (respT "12") st0).2.1.v = volt.getD 1 0 ∧
    (getFreq (respT "12") st0).1 = Except.ok 12 ∧
    (getOut (respT "2.5") 3 st0).1 = Except.ok (mkRat 5 2) := by
  exact ⟨pyDropLast_append_newline, rfl, rfl, rfl, rfl,
    by decide, by decide, by decide, by decide⟩

end SR830
